import Mathlib

/-!
Verification development for the dentomotion school-portal repository.

The definitions below are a shallow embedding of the request-handling and
WebSocket-consumer code of the repository: the ORM rows become Lean
structures, the database becomes a record of lists of rows, and each view
or consumer callback becomes a function from the database (and request
data) to an HTTP status plus the updated database, or to a list of
channel-layer effects.  Machine-level concerns (ids, times) are modelled
with Nat; JSON payloads are modelled as association lists of string keys.
-/

namespace Dentomotion

/-- User roles, from users/models.py ROLE_CHOICES. -/
inductive Role
  | superAdmin
  | centreManager
  | teacher
  | student
  | parent
deriving DecidableEq, Repr

/-- A row of the custom User model (the fields the whiteboard and classes
code reads). `centre` is nullable, as in the model. -/
structure User where
  id : Nat
  firstName : String
  lastName : String
  role : Role
  centre : Option Nat
deriving DecidableEq, Repr

/-- User.get_full_name: first and last name joined by a space, stripped. -/
def getFullName (u : User) : String :=
  (u.firstName ++ " " ++ u.lastName).trim

/-- A row of classes/models.py Class (id plus its centre foreign key). -/
structure ClassRec where
  id : Nat
  centre : Nat
deriving DecidableEq, Repr

/-- A row of classes/models.py TeacherAssignment. -/
structure TeacherAssignment where
  teacher : Nat
  classInstance : Nat
deriving DecidableEq, Repr

/-- A row of classes/models.py Enrolment. -/
structure Enrolment where
  student : Nat
  classInstance : Nat
  isActive : Bool
deriving DecidableEq, Repr

/-- A row of whiteboard/models.py WhiteboardSession. -/
structure WhiteboardSession where
  id : Nat
  classInstance : Nat
  teacher : Nat
  startedAt : Nat
  endedAt : Option Nat
  isActive : Bool
deriving DecidableEq, Repr

/-- A row of whiteboard/models.py WhiteboardSnapshot. -/
structure WhiteboardSnapshot where
  session : Nat
  snapshotData : String
  savedBy : Option Nat
deriving DecidableEq, Repr

/-- The relational state the whiteboard and classes code operates on. -/
structure DB where
  users : List User
  classes : List ClassRec
  assignments : List TeacherAssignment
  enrolments : List Enrolment
  sessions : List WhiteboardSession
  snapshots : List WhiteboardSnapshot
deriving DecidableEq, Repr

/-- User.objects.get(id=uid), as Option. -/
def findUser (db : DB) (uid : Nat) : Option User :=
  db.users.find? (fun u => u.id == uid)

/-- Class.objects.get(id=cid), as Option. -/
def findClass (db : DB) (cid : Nat) : Option ClassRec :=
  db.classes.find? (fun c => c.id == cid)

/-- TeacherAssignment.objects.filter(teacher=tid, class_instance=cid).exists(). -/
def hasAssignment (db : DB) (tid cid : Nat) : Bool :=
  db.assignments.any (fun a => a.teacher == tid && a.classInstance == cid)

/-- Enrolment.objects.filter(student=sid, class_instance=cid, is_active=True).exists(). -/
def hasActiveEnrolment (db : DB) (sid cid : Nat) : Bool :=
  db.enrolments.any (fun e => e.student == sid && e.classInstance == cid && e.isActive)

/-- teacher.teaching_assignments.count(). -/
def assignmentCount (db : DB) (tid : Nat) : Nat :=
  (db.assignments.filter (fun a => a.teacher == tid)).length

/-- The join class_instance__centre equals c (the class row with this id has
centre c). -/
def classCentreIs (db : DB) (cid c : Nat) : Bool :=
  db.classes.any (fun cl => cl.id == cid && cl.centre == c)

/-- WhiteboardSession.objects.get(id=sid), as in WhiteboardConsumer.get_session. -/
def get_session (db : DB) (sid : Nat) : Option WhiteboardSession :=
  db.sessions.find? (fun s => s.id == sid)

/-! ## JSON payloads

The consumer treats client messages as parsed JSON dicts.  We model a dict
as an association list; `setKey` is Python dict assignment (replace the
existing key in place, else append) and `getKey` is dict lookup. -/

/-- A JSON value (the fragment the consumer manipulates). -/
inductive JVal
  | jnull
  | jbool (b : Bool)
  | jnum (n : Int)
  | jstr (s : String)
deriving DecidableEq, Repr

/-- A parsed JSON object: keys with values, in insertion order. -/
abbrev JObj := List (String × JVal)

/-- Python dict assignment d[k] = v: replace the first binding of k in
place, otherwise append the binding at the end. -/
def setKey : JObj → String → JVal → JObj
  | [], k, v => [(k, v)]
  | (k0, v0) :: rest, k, v =>
    if k0 = k then (k, v) :: rest else (k0, v0) :: setKey rest k v

/-- Python dict lookup d.get(k) as Option. -/
def getKey : JObj → String → Option JVal
  | [], _ => none
  | (k0, v0) :: rest, k => if k0 = k then some v0 else getKey rest k

/-- Python d.get(k): None when the key is missing. -/
def getD (o : JObj) (k : String) : JVal :=
  (getKey o k).getD JVal.jnull

/-! ## Channel layer and consumer callbacks

A room group is the list of channels that joined it; `group_send`
delivers one event to every channel of the group, and each receiving
consumer's handler turns the event into the JSON frame written to its
WebSocket. -/

/-- The display string of a role, as serialized in user.role. -/
def roleStr : Role → String
  | Role.superAdmin => "SUPER_ADMIN"
  | Role.centreManager => "CENTRE_MANAGER"
  | Role.teacher => "TEACHER"
  | Role.student => "STUDENT"
  | Role.parent => "PARENT"

/-- A channel-layer event, as built by the consumer callbacks. -/
inductive Event
  | whiteboardMessage (message : JObj)
  | userJoined (userId : Nat) (userName : String) (userRole : Role)
  | userLeft (userId : Nat) (userName : String)
deriving DecidableEq, Repr

/-- channel_layer.group_send: every channel currently in the group
receives the event. -/
def group_send (room : List Nat) (event : Event) : List (Nat × Event) :=
  room.map (fun ch => (ch, event))

/-- The per-channel handlers whiteboard_message / user_joined / user_left:
the JSON frame each member's consumer writes to its own WebSocket. -/
def handleEvent : Event → JObj
  | Event.whiteboardMessage m => m
  | Event.userJoined uid name r =>
      [("type", JVal.jstr "user_joined"), ("user_id", JVal.jnum uid),
       ("user_name", JVal.jstr name), ("user_role", JVal.jstr (roleStr r))]
  | Event.userLeft uid name =>
      [("type", JVal.jstr "user_left"), ("user_id", JVal.jnum uid),
       ("user_name", JVal.jstr name)]

/-- The body of WhiteboardConsumer.receive: attach the connection user's
identity to the parsed payload (overwriting any client-supplied values)
and re-read the timestamp. -/
def receiveData (user : User) (data : JObj) : JObj :=
  let data := setKey data "user_id" (JVal.jnum user.id)
  let data := setKey data "user_name" (JVal.jstr (getFullName user))
  let data := setKey data "timestamp" (getD data "timestamp")
  data

/-- WhiteboardConsumer.receive followed by each member's
whiteboard_message handler: the frames delivered to the room. -/
def receive (room : List Nat) (user : User) (data : JObj) : List (Nat × JObj) :=
  (group_send room (Event.whiteboardMessage (receiveData user data))).map
    (fun p => (p.1, handleEvent p.2))

/-- WhiteboardConsumer.disconnect: a user_left event is group_sent to the
room, then the departing channel is discarded from the group.  Returns the
delivered frames and the group after the discard. -/
def disconnect (room : List Nat) (user : User) (channel : Nat) :
    List (Nat × JObj) × List Nat :=
  ((group_send room (Event.userLeft user.id (getFullName user))).map
      (fun p => (p.1, handleEvent p.2)),
   room.erase channel)

/-- WhiteboardConsumer.verify_access: teachers need an assignment to the
session's class, students an active enrolment, centre managers and super
admins pass unconditionally, everyone else is denied. -/
def verify_access (db : DB) (u : User) (s : WhiteboardSession) : Bool :=
  if u.role = Role.teacher then hasAssignment db u.id s.classInstance
  else if u.role = Role.student then hasActiveEnrolment db u.id s.classInstance
  else if u.role = Role.centreManager ∨ u.role = Role.superAdmin then true
  else false

/-- An observable step of WhiteboardConsumer.connect. -/
inductive WsEffect
  | close (code : Nat)
  | groupAdd (channel : Nat)
  | accept
  | sendUserJoined (userId : Nat) (userName : String) (userRole : Role)
deriving DecidableEq, Repr

/-- WhiteboardConsumer.connect: the ordered effects the handler performs
for a connection attempt on the given session, by a scope user that is
`none` when unauthenticated.  `channel` is the connecting channel's name. -/
def connect (db : DB) (scopeUser : Option User) (sessionId channel : Nat) :
    List WsEffect :=
  match scopeUser with
  | none => [WsEffect.close 1008]
  | some user =>
    match get_session db sessionId with
    | none => [WsEffect.close 3000]
    | some session =>
      if ¬session.isActive then [WsEffect.close 3001]
      else if ¬verify_access db user session then [WsEffect.close 3002]
      else [WsEffect.groupAdd channel, WsEffect.accept,
            WsEffect.sendUserJoined user.id (getFullName user) user.role]

/-! ## REST views (whiteboard/views.py and classes/views.py)

Each view is a function from the database and the request's data to the
HTTP status code and the resulting database.  `get_object` on a ViewSet
retrieves from the role-filtered queryset and yields 404 when the object
is not visible to the requester. -/

/-- WhiteboardSessionViewSet.get_queryset: the sessions visible to a
requester, by role. -/
def visibleSessions (db : DB) (u : User) : List WhiteboardSession :=
  if u.role = Role.superAdmin then db.sessions
  else if u.role = Role.centreManager then
    match u.centre with
    | some c => db.sessions.filter (fun s => classCentreIs db s.classInstance c)
    | none => []
  else if u.role = Role.teacher then
    db.sessions.filter (fun s => hasAssignment db u.id s.classInstance)
  else if u.role = Role.student then
    db.sessions.filter (fun s => hasActiveEnrolment db u.id s.classInstance)
  else []

/-- get_object on WhiteboardSessionViewSet: look the pk up in the
requester's queryset. -/
def getSessionObject (db : DB) (u : User) (pk : Nat) : Option WhiteboardSession :=
  (visibleSessions db u).find? (fun s => s.id == pk)

/-- WhiteboardSession.end_session: set is_active False and ended_at to the
current time. -/
def endSessionRow (s : WhiteboardSession) (now : Nat) : WhiteboardSession :=
  { s with isActive := false, endedAt := some now }

/-- Persist end_session for the session with the given id. -/
def endSessionModel (db : DB) (pk now : Nat) : DB :=
  { db with sessions :=
      db.sessions.map (fun t => if t.id = pk then endSessionRow t now else t) }

/-- WhiteboardSessionViewSet.end_session (POST /whiteboard/sessions/pk/end):
only the teacher who created the session may end it; ending an already
ended session is a 400; otherwise the session row is ended. -/
def end_session_view (db : DB) (requester : User) (pk now : Nat) : Nat × DB :=
  match getSessionObject db requester pk with
  | none => (404, db)
  | some session =>
    if ¬(requester.role = Role.teacher ∧ session.teacher = requester.id) then
      (403, db)
    else if ¬session.isActive then (400, db)
    else (200, endSessionModel db pk now)

/-- WhiteboardSessionViewSet.join_session (POST /whiteboard/sessions/pk/join):
active session required; teachers need an assignment to the class,
students an active enrolment, all other roles are refused. -/
def join_session_view (db : DB) (requester : User) (pk : Nat) : Nat :=
  match getSessionObject db requester pk with
  | none => 404
  | some session =>
    if ¬session.isActive then 400
    else if requester.role = Role.teacher then
      if hasAssignment db requester.id session.classInstance then 200 else 403
    else if requester.role = Role.student then
      if hasActiveEnrolment db requester.id session.classInstance then 200 else 403
    else 403

/-- WhiteboardSession.objects.filter(class_instance=cid, is_active=True)
is non-empty. -/
def anyActiveSession (db : DB) (cid : Nat) : Bool :=
  db.sessions.any (fun s => s.classInstance == cid && s.isActive)

/-- WhiteboardSessionViewSet.create: teachers only, for a class they are
assigned to, refused with 400 while the class already has an active
session; on success a new active session row is appended. -/
def create_session_view (db : DB) (requester : User)
    (classId : Nat) (sessionName : String) (newId now : Nat) : Nat × DB :=
  if requester.role ≠ Role.teacher then (403, db)
  else
    match findClass db classId with
    | none => (400, db)
    | some _ =>
      if ¬hasAssignment db requester.id classId then (403, db)
      else if anyActiveSession db classId then (400, db)
      else
        (201, { db with sessions := db.sessions ++
                  [{ id := newId, classInstance := classId,
                     teacher := requester.id, startedAt := now,
                     endedAt := none, isActive := true }] })

/-- WhiteboardSessionViewSet.snapshots, POST branch: teachers only; the
posted canvas state is saved as a snapshot row of this session. -/
def snapshots_post (db : DB) (requester : User) (pk : Nat)
    (canvas : String) : Nat × DB :=
  match getSessionObject db requester pk with
  | none => (404, db)
  | some _ =>
    if requester.role ≠ Role.teacher then (403, db)
    else
      (201, { db with snapshots := db.snapshots ++
                [{ session := pk, snapshotData := canvas,
                   savedBy := some requester.id }] })

/-- core/tasks.py cleanup_old_sessions: the periodic task ends every
session that is active and started at least 24 hours ago.  Times are in
hours. -/
def cleanup_old_sessions (db : DB) (now : Nat) : DB :=
  { db with sessions := db.sessions.map (fun s =>
      if s.isActive ∧ s.startedAt + 24 ≤ now then endSessionRow s now else s) }

/-- ClassViewSet.get_queryset (without the optional query-param filters):
the classes visible to a requester, by role. -/
def visibleClasses (db : DB) (u : User) : List ClassRec :=
  if u.role = Role.superAdmin then db.classes
  else if u.role = Role.centreManager ∨ u.role = Role.teacher then
    match u.centre with
    | some c =>
      if u.role = Role.teacher then
        (db.classes.filter (fun cl => cl.centre == c)).filter
          (fun cl => hasAssignment db u.id cl.id)
      else db.classes.filter (fun cl => cl.centre == c)
    | none => []
  else if u.role = Role.student then
    db.classes.filter (fun cl => hasActiveEnrolment db u.id cl.id)
  else []

/-- get_object on ClassViewSet. -/
def getClassObject (db : DB) (u : User) (pk : Nat) : Option ClassRec :=
  (visibleClasses db u).find? (fun c => c.id == pk)

/-- TeacherAssignmentSerializer.validate_teacher_id: the user must exist
and have the teacher role.  No other validation is performed by this
serializer for teacher_id. -/
def validate_teacher_id (db : DB) (tid : Nat) : Bool :=
  match findUser db tid with
  | none => false
  | some u => u.role = Role.teacher

/-- ClassViewSet.teachers, POST branch (direct TeacherAssignment creation):
super admins and centre managers only; the serializer validates the
teacher_id (role only) and the body's class_instance foreign key, then
serializer.save(class_instance=URL class) creates the row via
objects.create, which never calls TeacherAssignment.clean.  The database
unique constraint on (teacher, class_instance) rejects duplicates. -/
def assign_teacher_view (db : DB) (requester : User)
    (classId bodyClassId tid : Nat) : Nat × DB :=
  match getClassObject db requester classId with
  | none => (404, db)
  | some _ =>
    if ¬(requester.role = Role.superAdmin ∨ requester.role = Role.centreManager) then
      (403, db)
    else if (findClass db bodyClassId).isNone then (400, db)
    else if ¬validate_teacher_id db tid then (400, db)
    else if db.assignments.any (fun a => a.teacher == tid && a.classInstance == classId) then
      (500, db)
    else
      (201, { db with assignments := db.assignments ++
                [{ teacher := tid, classInstance := classId }] })

/-- EnrolmentSerializer.validate_student_id: the user must exist and have
the student role. -/
def validate_student_id (db : DB) (sid : Nat) : Bool :=
  match findUser db sid with
  | none => false
  | some u => u.role = Role.student

/-- ClassViewSet.enrolments, POST branch: super admins and centre managers
only; EnrolmentSerializer validates the student_id, the body's
class_instance foreign key and that the student's centre equals the BODY
class's centre, then serializer.save(class_instance=URL class) creates the
enrolment for the URL class via objects.create, which never calls
Enrolment.clean.  The unique constraint on (student, class_instance)
rejects duplicates. -/
def enrol_student_view (db : DB) (requester : User)
    (classId bodyClassId sid : Nat) : Nat × DB :=
  match getClassObject db requester classId with
  | none => (404, db)
  | some _ =>
    if ¬(requester.role = Role.superAdmin ∨ requester.role = Role.centreManager) then
      (403, db)
    else
      match findUser db sid with
      | none => (400, db)
      | some stu =>
        if stu.role ≠ Role.student then (400, db)
        else
          match findClass db bodyClassId with
          | none => (400, db)
          | some bodyCls =>
            if stu.centre ≠ some bodyCls.centre then (400, db)
            else if db.enrolments.any
                (fun e => e.student == sid && e.classInstance == classId) then
              (500, db)
            else
              (201, { db with enrolments := db.enrolments ++
                        [{ student := sid, classInstance := classId,
                           isActive := true }] })

/-- ClassCreateSerializer.validate_teacher_ids: every listed id must be an
existing teacher with fewer than 3 current assignments. -/
def validate_teacher_ids (db : DB) (tids : List Nat) : Bool :=
  tids.all (fun tid =>
    match findUser db tid with
    | none => false
    | some u => u.role = Role.teacher && assignmentCount db tid < 3)

/-! ## A concrete database for witnesses and counterexamples -/

/-- Teacher 1 (centre 1): created session 7 and the ended session 8. -/
def uT1 : User :=
  { id := 1, firstName := "Ada", lastName := "Teach",
    role := Role.teacher, centre := some 1 }

/-- Teacher 2 (centre 1): assigned to class 100 but created no session. -/
def uT2 : User :=
  { id := 2, firstName := "Bo", lastName := "Teach",
    role := Role.teacher, centre := some 1 }

/-- Teacher 3 (centre 1): already assigned to the three classes 10, 11, 12. -/
def uT3 : User :=
  { id := 3, firstName := "Cy", lastName := "Teach",
    role := Role.teacher, centre := some 1 }

/-- Student 5 (centre 1): actively enrolled in class 100. -/
def uS5 : User :=
  { id := 5, firstName := "Eve", lastName := "Learn",
    role := Role.student, centre := some 1 }

/-- Centre manager 9 (centre 1): no roster link to any class. -/
def uM9 : User :=
  { id := 9, firstName := "Max", lastName := "Manage",
    role := Role.centreManager, centre := some 1 }

/-- Super admin 0. -/
def uA0 : User :=
  { id := 0, firstName := "Sue", lastName := "Admin",
    role := Role.superAdmin, centre := none }

/-- Parent 4 (centre 1): whiteboard sessions are never in their queryset. -/
def uP4 : User :=
  { id := 4, firstName := "Pat", lastName := "Parent",
    role := Role.parent, centre := some 1 }

/-- A concrete database: two centres, classes 100 (centre 1), 200
(centre 2) and 10–13 (centre 1); session 7 active and session 8 already
ended, both for class 100 and created by teacher 1. -/
def demoDb : DB :=
  { users := [uA0, uT1, uT2, uT3, uP4, uS5, uM9],
    classes := [{ id := 100, centre := 1 }, { id := 200, centre := 2 },
                { id := 10, centre := 1 }, { id := 11, centre := 1 },
                { id := 12, centre := 1 }, { id := 13, centre := 1 }],
    assignments := [{ teacher := 1, classInstance := 100 },
                    { teacher := 2, classInstance := 100 },
                    { teacher := 3, classInstance := 10 },
                    { teacher := 3, classInstance := 11 },
                    { teacher := 3, classInstance := 12 }],
    enrolments := [{ student := 5, classInstance := 100, isActive := true }],
    sessions := [{ id := 7, classInstance := 100, teacher := 1,
                   startedAt := 0, endedAt := none, isActive := true },
                 { id := 8, classInstance := 100, teacher := 1,
                   startedAt := 0, endedAt := some 5, isActive := false }],
    snapshots := [] }

/-- The demo database with one stored snapshot, for observing that the
periodic cleanup task adds no snapshot rows. -/
def dbSnap : DB :=
  { demoDb with snapshots :=
      [{ session := 8, snapshotData := "old-canvas", savedBy := some 1 }] }

/-- A concrete client payload: a draw action carrying spoofed identity. -/
def demoMsg : JObj :=
  [("type", JVal.jstr "draw"), ("points", JVal.jnum 4),
   ("user_id", JVal.jnum 99), ("user_name", JVal.jstr "Mallory"),
   ("timestamp", JVal.jnum 1000)]

/-! ## Dictionary lemmas -/

/-- Setting the same key twice keeps only the second value. -/
theorem setKey_setKey_same (o : JObj) (k : String) (v w : JVal) :
    setKey (setKey o k v) k w = setKey o k w := by
  induction o with
  | nil => simp [setKey]
  | cons p rest ih =>
    obtain ⟨k0, v0⟩ := p
    by_cases h : k0 = k
    · simp [setKey, h]
    · simp [setKey, h, ih]

/-- A set of key k, then of another key, then of k again collapses to the
last value of k. -/
theorem setKey_swap_collapse (o : JObj) (k k2 : String) (hk : k ≠ k2)
    (a b c : JVal) :
    setKey (setKey (setKey o k a) k2 b) k c = setKey (setKey o k c) k2 b := by
  induction o with
  | nil => simp [setKey, hk, Ne.symm hk]
  | cons p rest ih =>
    obtain ⟨k0, v0⟩ := p
    by_cases h : k0 = k
    · subst h
      simp [setKey, hk, Ne.symm hk]
    · by_cases h2 : k0 = k2
      · subst h2
        simp [setKey, h, Ne.symm hk, setKey_setKey_same]
      · simp [setKey, h, h2, ih]

/-- Lookup of a key is unchanged by setting a different key. -/
theorem getKey_setKey_ne (o : JObj) (k k2 : String) (h : k ≠ k2) (v : JVal) :
    getKey (setKey o k2 v) k = getKey o k := by
  induction o with
  | nil => simp [setKey, getKey, h, Ne.symm h]
  | cons p rest ih =>
    obtain ⟨k0, v0⟩ := p
    by_cases h0 : k0 = k2
    · subst h0
      simp [setKey, getKey, h, Ne.symm h]
    · by_cases h1 : k0 = k
      · subst h1
        simp [setKey, getKey, h0]
      · simp [setKey, getKey, h0, h1, ih]

/-- Lookup of a key just set yields the new value. -/
theorem getKey_setKey_same (o : JObj) (k : String) (v : JVal) :
    getKey (setKey o k v) k = some v := by
  induction o with
  | nil => simp [setKey, getKey]
  | cons p rest ih =>
    obtain ⟨k0, v0⟩ := p
    by_cases h : k0 = k
    · simp [setKey, getKey, h]
    · simp [setKey, getKey, h, ih]

/-! ## List lemmas on find? and filters -/

/-- The first element found in a list is still the first one found in a
filtered sublist, provided it survives the filter. -/
theorem find?_filter_of_find? {α : Type} (l : List α) (p q : α → Bool) (x : α)
    (h : l.find? p = some x) (hq : q x = true) :
    (l.filter q).find? p = some x := by
  induction l with
  | nil => simp [List.find?] at h
  | cons a rest ih =>
    by_cases hp : p a
    · rw [List.find?_cons_of_pos _ hp] at h
      obtain rfl : a = x := by exact Option.some.inj h
      simp [List.filter_cons, hq, List.find?_cons_of_pos _ hp]
    · rw [List.find?_cons_of_neg _ (by simpa using hp)] at h
      by_cases hqa : q a
      · simp [List.filter_cons, hqa,
          List.find?_cons_of_neg _ (by simpa using hp), ih h]
      · simp [List.filter_cons, hqa, ih h]

/-- Ending the session with id pk commutes with looking a session up by
id, because ending preserves the id. -/
theorem find?_map_endIf (l : List WhiteboardSession) (pk now : Nat) :
    (l.map (fun t => if t.id = pk then endSessionRow t now else t)).find?
        (fun s => s.id == pk)
      = (l.find? (fun s => s.id == pk)).map (fun s => endSessionRow s now) := by
  induction l with
  | nil => simp [List.find?]
  | cons a rest ih =>
    by_cases h : a.id = pk
    · simp [List.find?, h, endSessionRow]
    · have hb : (a.id == pk) = false := by simpa using h
      simp [List.find?, h, hb, ih]

/-- The number of active sessions a class has within a session list. -/
def activeCountIn (l : List WhiteboardSession) (cid : Nat) : Nat :=
  (l.filter (fun s => s.classInstance == cid && s.isActive)).length

/-- The per-class single-active-session invariant, bounded over the
classes that occur in the list (classes with no session trivially have
count 0). -/
def atMostOneActive (l : List WhiteboardSession) : Bool :=
  l.all (fun s => activeCountIn l s.classInstance ≤ 1)

/-- The bounded invariant is the universal one. -/
theorem atMostOneActive_iff (l : List WhiteboardSession) :
    atMostOneActive l = true ↔ ∀ cid, activeCountIn l cid ≤ 1 := by
  constructor
  · intro h cid
    rcases Nat.lt_or_ge (activeCountIn l cid) 2 with h2 | h2
    · omega
    · exfalso
      have hne : (l.filter (fun s => s.classInstance == cid && s.isActive)) ≠ [] := by
        intro hnil
        simp [activeCountIn, hnil] at h2
      obtain ⟨s, hs⟩ := List.exists_mem_of_ne_nil _ hne
      have hmem := List.mem_filter.mp hs
      have hcid : s.classInstance = cid := by
        have := hmem.2
        simp only [Bool.and_eq_true, beq_iff_eq] at this
        exact this.1
      have := (List.all_eq_true.mp h) s hmem.1
      simp only [decide_eq_true_eq] at this
      rw [hcid] at this
      omega
  · intro h
    apply List.all_eq_true.mpr
    intro s _
    simpa using h s.classInstance

/-- Counting after the cleanup / end map never increases: a mapped row is
either unchanged or was ended, and ending deactivates. -/
theorem activeCountIn_map_le (l : List WhiteboardSession)
    (f : WhiteboardSession → WhiteboardSession)
    (hf : ∀ s, f s = s ∨ ∃ now, f s = endSessionRow s now) (cid : Nat) :
    activeCountIn (l.map f) cid ≤ activeCountIn l cid := by
  induction l with
  | nil => simp [activeCountIn]
  | cons a rest ih =>
    simp only [activeCountIn, List.map_cons, List.filter_cons] at *
    rcases hf a with ha | ⟨now, ha⟩
    · rw [ha]
      by_cases hp : (a.classInstance == cid && a.isActive) = true
      · simp [hp]; omega
      · simp [hp]; omega
    · rw [ha]
      have : ((endSessionRow a now).classInstance == cid
          && (endSessionRow a now).isActive) = false := by
        simp [endSessionRow]
      rw [this]
      by_cases hp : (a.classInstance == cid && a.isActive) = true
      · simp [hp]; omega
      · simp [hp]; omega

/-- Appending one session adds one to the count of its class (when it is
active) and nothing to any other class. -/
theorem activeCountIn_append_one (l : List WhiteboardSession)
    (s : WhiteboardSession) (cid : Nat) :
    activeCountIn (l ++ [s]) cid
      = activeCountIn l cid
        + (if s.classInstance == cid && s.isActive then 1 else 0) := by
  by_cases hp : (s.classInstance == cid && s.isActive) = true
  · simp [activeCountIn, List.filter_append, hp]
  · simp [activeCountIn, List.filter_append, hp]

/-- A class with no active session has active count 0. -/
theorem activeCountIn_eq_zero_of_not_any (l : List WhiteboardSession)
    (cid : Nat) (h : l.any (fun s => s.classInstance == cid && s.isActive) = false) :
    activeCountIn l cid = 0 := by
  have : l.filter (fun s => s.classInstance == cid && s.isActive) = [] := by
    apply List.filter_eq_nil_iff.mpr
    intro s hs
    have := List.any_eq_false.mp h s hs
    simpa using this
  simp [activeCountIn, this]

/-- The class of a mapped row is the class of the original row, for maps
that either keep or end a row. -/
theorem classInstance_of_endMap (f : WhiteboardSession → WhiteboardSession)
    (hf : ∀ s, f s = s ∨ ∃ now, f s = endSessionRow s now) (s : WhiteboardSession) :
    (f s).classInstance = s.classInstance := by
  rcases hf s with h | ⟨now, h⟩ <;> simp [h, endSessionRow]

/-- Any end-style map over the session list preserves the single-active
invariant. -/
theorem atMostOneActive_map (l : List WhiteboardSession)
    (f : WhiteboardSession → WhiteboardSession)
    (hf : ∀ s, f s = s ∨ ∃ now, f s = endSessionRow s now)
    (h : atMostOneActive l = true) : atMostOneActive (l.map f) = true := by
  rw [atMostOneActive_iff] at h ⊢
  intro cid
  exact le_trans (activeCountIn_map_le l f hf cid) (h cid)

/-- Appending a fresh active session for a class with no active session
preserves the single-active invariant. -/
theorem atMostOneActive_append (l : List WhiteboardSession)
    (s : WhiteboardSession)
    (hnone : l.any (fun t => t.classInstance == s.classInstance && t.isActive) = false)
    (h : atMostOneActive l = true) : atMostOneActive (l ++ [s]) = true := by
  rw [atMostOneActive_iff] at h ⊢
  intro cid
  rw [activeCountIn_append_one]
  by_cases hc : s.classInstance = cid
  · subst hc
    have h0 := activeCountIn_eq_zero_of_not_any l s.classInstance hnone
    simp [h0]
    split <;> omega
  · have : (s.classInstance == cid && s.isActive) = false := by
      simp [hc]
    simp [this, h cid]

/-- A teacher's get_object on the session ViewSet succeeds exactly on the
sessions of classes they are assigned to. -/
theorem getSessionObject_teacher (db : DB) (u : User) (pk : Nat)
    (s : WhiteboardSession) (hrole : u.role = Role.teacher)
    (hfind : get_session db pk = some s)
    (hassign : hasAssignment db u.id s.classInstance = true) :
    getSessionObject db u pk = some s := by
  unfold getSessionObject visibleSessions
  rw [hrole]
  simp only [reduceCtorEq, if_false, if_true]
  exact find?_filter_of_find? db.sessions _ _ s hfind hassign

/-- A student's get_object on the session ViewSet succeeds exactly on the
sessions of classes they are actively enrolled in. -/
theorem getSessionObject_student (db : DB) (u : User) (pk : Nat)
    (s : WhiteboardSession) (hrole : u.role = Role.student)
    (hfind : get_session db pk = some s)
    (henrol : hasActiveEnrolment db u.id s.classInstance = true) :
    getSessionObject db u pk = some s := by
  unfold getSessionObject visibleSessions
  rw [hrole]
  simp only [reduceCtorEq, if_false, if_true]
  exact find?_filter_of_find? db.sessions _ _ s hfind henrol

/-- The end view either leaves the session table unchanged or applies the
end map to the requested id. -/
theorem end_session_view_sessions (db : DB) (u : User) (pk now : Nat) :
    (end_session_view db u pk now).2.sessions = db.sessions
    ∨ (end_session_view db u pk now).2.sessions
        = db.sessions.map (fun t => if t.id = pk then endSessionRow t now else t) := by
  unfold end_session_view
  cases getSessionObject db u pk with
  | none => exact Or.inl rfl
  | some s =>
    by_cases h1 : u.role = Role.teacher ∧ s.teacher = u.id
    · by_cases h2 : s.isActive
      · right
        simp [h1, h2, endSessionModel]
      · left
        simp [h1, h2]
    · left
      simp [h1]

/-! ## The claims -/

/-- C9: the user_id and user_name of every rebroadcast payload are
determined solely by the connection's authenticated user — overwriting the
client-supplied user_id and user_name fields of the incoming message does
not change the broadcast, and the broadcast fields always carry the
connection user's id and full name. -/
theorem C9_identity_not_spoofable (u : User) (data : JObj) (v w : JVal) :
    receiveData u (setKey (setKey data "user_id" v) "user_name" w)
        = receiveData u data
    ∧ getKey (receiveData u data) "user_id" = some (JVal.jnum u.id)
    ∧ getKey (receiveData u data) "user_name"
        = some (JVal.jstr (getFullName u)) := by
  have key : ∀ d : JObj,
      setKey (setKey (setKey (setKey d "user_id" v) "user_name" w)
          "user_id" (JVal.jnum u.id)) "user_name" (JVal.jstr (getFullName u))
        = setKey (setKey d "user_id" (JVal.jnum u.id)) "user_name"
            (JVal.jstr (getFullName u)) := by
    intro d
    rw [setKey_swap_collapse d "user_id" "user_name" (by decide) v w
        (JVal.jnum u.id), setKey_setKey_same]
  refine ⟨?_, ?_, ?_⟩
  · show setKey _ "timestamp" _ = setKey _ "timestamp" _
    rw [key data]
  · show getKey (setKey _ "timestamp" _) "user_id" = _
    rw [getKey_setKey_ne _ _ _ (by decide),
        getKey_setKey_ne _ _ _ (by decide), getKey_setKey_same]
  · show getKey (setKey _ "timestamp" _) "user_name" = _
    rw [getKey_setKey_ne _ _ _ (by decide), getKey_setKey_same]

/-- C9 witness: the spoofed demo payload broadcasts exactly as the
unspoofed one, and carries teacher 1's identity. -/
theorem C9_identity_not_spoofable_witness :
    receiveData uT1 (setKey (setKey demoMsg "user_id" (JVal.jnum 42))
        "user_name" (JVal.jstr "Oscar"))
      = receiveData uT1 demoMsg :=
  (C9_identity_not_spoofable uT1 demoMsg (JVal.jnum 42)
    (JVal.jstr "Oscar")).1

/-- C2 counterexample: the consumer's receive handler group_sends to the
whole room group, which the sender's own channel joined at connect; with
the room holding channels 0 (the sender's) and 1, the sender's channel 0
is among the delivery targets and receives the rebroadcast — the claim
that the sender does not receive their own message back is false. -/
theorem C2_counterexample :
    (0, receiveData uT1 demoMsg) ∈ receive [0, 1] uT1 demoMsg
    ∧ receive [0, 1] uT1 demoMsg
        = [(0, receiveData uT1 demoMsg), (1, receiveData uT1 demoMsg)] := by
  constructor
  · simp [receive, group_send, handleEvent]
  · rfl

/-- C2 amended: on every message received on an accepted connection, the
consumer attaches the sender's user_id and user_name, guarantees a
timestamp field (null when the client omitted one), leaves every other
field unchanged, and rebroadcasts the result to every connected member of
the session room including the sender, who does receive their own message
back. -/
theorem C2_broadcast (room : List Nat) (u : User) (data : JObj) :
    (∀ ch ∈ room, (ch, receiveData u data) ∈ receive room u data)
    ∧ getKey (receiveData u data) "user_id" = some (JVal.jnum u.id)
    ∧ getKey (receiveData u data) "user_name"
        = some (JVal.jstr (getFullName u))
    ∧ getKey (receiveData u data) "timestamp" = some (getD data "timestamp")
    ∧ (∀ k, k ≠ "user_id" → k ≠ "user_name" → k ≠ "timestamp" →
        getKey (receiveData u data) k = getKey data k) := by
  refine ⟨?_, ?_, ?_, ?_, ?_⟩
  · intro ch hch
    simp only [receive, group_send, List.map_map, List.mem_map]
    exact ⟨ch, hch, rfl⟩
  · show getKey (setKey _ "timestamp" _) "user_id" = _
    rw [getKey_setKey_ne _ _ _ (by decide),
        getKey_setKey_ne _ _ _ (by decide), getKey_setKey_same]
  · show getKey (setKey _ "timestamp" _) "user_name" = _
    rw [getKey_setKey_ne _ _ _ (by decide), getKey_setKey_same]
  · show getKey (setKey _ "timestamp" (getD (setKey (setKey data "user_id" _)
        "user_name" _) "timestamp")) "timestamp" = _
    rw [getKey_setKey_same]
    unfold getD
    rw [getKey_setKey_ne _ _ _ (by decide), getKey_setKey_ne _ _ _ (by decide)]
  · intro k h1 h2 h3
    show getKey (setKey _ "timestamp" _) k = _
    rw [getKey_setKey_ne _ _ _ h3, getKey_setKey_ne _ _ _ h2,
        getKey_setKey_ne _ _ _ h1]

/-- C2 witness: in the two-channel demo room, channel 1 receives teacher
1's rebroadcast demo message, and a field the handler does not touch is
passed through unchanged. -/
theorem C2_broadcast_witness :
    (1, receiveData uT1 demoMsg) ∈ receive [0, 1] uT1 demoMsg
    ∧ getKey (receiveData uT1 demoMsg) "points" = getKey demoMsg "points" :=
  ⟨(C2_broadcast [0, 1] uT1 demoMsg).1 1 (by simp),
   (C2_broadcast [0, 1] uT1 demoMsg).2.2.2.2 "points"
     (by decide) (by decide) (by decide)⟩

/-- C6: when a member of a whiteboard room disconnects, a user_left frame
carrying the departing user's id and full name is delivered to every
channel still in the room, and the departing channel is removed from the
room group. -/
theorem C6_disconnect_notifies (room : List Nat) (u : User) (ch : Nat)
    (hnd : room.Nodup) :
    (∀ c ∈ room,
        (c, [("type", JVal.jstr "user_left"), ("user_id", JVal.jnum u.id),
             ("user_name", JVal.jstr (getFullName u))])
          ∈ (disconnect room u ch).1)
    ∧ ch ∉ (disconnect room u ch).2 := by
  constructor
  · intro c hc
    simp only [disconnect, group_send, List.map_map, List.mem_map]
    exact ⟨c, hc, rfl⟩
  · intro hmem
    have := (List.Nodup.mem_erase_iff hnd).mp hmem
    exact this.1 rfl

/-- C6 witness: with teacher 1 leaving the three-channel room on channel
2, channel 1 receives the user_left frame and channel 2 leaves the group. -/
theorem C6_disconnect_notifies_witness :
    (1, [("type", JVal.jstr "user_left"), ("user_id", JVal.jnum uT1.id),
         ("user_name", JVal.jstr (getFullName uT1))])
      ∈ (disconnect [0, 1, 2] uT1 2).1
    ∧ 2 ∉ (disconnect [0, 1, 2] uT1 2).2 :=
  ⟨(C6_disconnect_notifies [0, 1, 2] uT1 2 (by decide)).1 1 (by simp),
   (C6_disconnect_notifies [0, 1, 2] uT1 2 (by decide)).2⟩

/-- C1 counterexample: centre manager 9 has no TeacherAssignment and no
Enrolment linking them to session 7's class, yet their connection attempt
is accepted (verify_access returns True for centre managers and super
admins without consulting the class roster) — the claim that every
connection is accepted only if the requester is verified against the
session's class roster is false. -/
theorem C1_counterexample :
    WsEffect.accept ∈ connect demoDb (some uM9) 7 0
    ∧ hasAssignment demoDb uM9.id 100 = false
    ∧ hasActiveEnrolment demoDb uM9.id 100 = false := by decide

/-- C1 amended: an unauthenticated requester is closed with 1008, a
missing session with 3000, an inactive session with 3001; against an
active session, an authenticated teacher is accepted exactly when a
TeacherAssignment links them to the session's class and an authenticated
student exactly when an active Enrolment does (otherwise closed 3002),
while centre managers and super admins are accepted without any roster
check and parents are always closed 3002; every attempt either ends in a
single close (never joining the room group) or joins the group and is
accepted. -/
theorem C1_connect_authorization (db : DB) (u : User) (sid ch : Nat) :
    connect db none sid ch = [WsEffect.close 1008]
    ∧ (get_session db sid = none →
        connect db (some u) sid ch = [WsEffect.close 3000])
    ∧ (∀ s, get_session db sid = some s → s.isActive = false →
        connect db (some u) sid ch = [WsEffect.close 3001])
    ∧ (∀ s, get_session db sid = some s → s.isActive = true →
        u.role = Role.teacher →
          connect db (some u) sid ch
            = (if hasAssignment db u.id s.classInstance then
                 [WsEffect.groupAdd ch, WsEffect.accept,
                  WsEffect.sendUserJoined u.id (getFullName u) u.role]
               else [WsEffect.close 3002]))
    ∧ (∀ s, get_session db sid = some s → s.isActive = true →
        u.role = Role.student →
          connect db (some u) sid ch
            = (if hasActiveEnrolment db u.id s.classInstance then
                 [WsEffect.groupAdd ch, WsEffect.accept,
                  WsEffect.sendUserJoined u.id (getFullName u) u.role]
               else [WsEffect.close 3002]))
    ∧ (∀ s, get_session db sid = some s → s.isActive = true →
        u.role = Role.centreManager ∨ u.role = Role.superAdmin →
          connect db (some u) sid ch
            = [WsEffect.groupAdd ch, WsEffect.accept,
               WsEffect.sendUserJoined u.id (getFullName u) u.role])
    ∧ (∀ s, get_session db sid = some s → s.isActive = true →
        u.role = Role.parent →
          connect db (some u) sid ch = [WsEffect.close 3002])
    ∧ ((∃ c, connect db (some u) sid ch = [WsEffect.close c])
        ∨ connect db (some u) sid ch
            = [WsEffect.groupAdd ch, WsEffect.accept,
               WsEffect.sendUserJoined u.id (getFullName u) u.role]) := by
  refine ⟨rfl, ?_, ?_, ?_, ?_, ?_, ?_, ?_⟩
  · intro h
    simp [connect, h]
  · intro s hs hact
    simp [connect, hs, hact]
  · intro s hs hact hrole
    have hva : verify_access db u s = hasAssignment db u.id s.classInstance := by
      simp [verify_access, hrole]
    by_cases hA : hasAssignment db u.id s.classInstance
    · simp [connect, hs, hact, hva, hA]
    · simp [connect, hs, hact, hva, hA]
  · intro s hs hact hrole
    have hva : verify_access db u s = hasActiveEnrolment db u.id s.classInstance := by
      simp [verify_access, hrole]
    by_cases hE : hasActiveEnrolment db u.id s.classInstance
    · simp [connect, hs, hact, hva, hE]
    · simp [connect, hs, hact, hva, hE]
  · intro s hs hact hrole
    have hva : verify_access db u s = true := by
      rcases hrole with h | h <;> simp [verify_access, h]
    simp [connect, hs, hact, hva]
  · intro s hs hact hrole
    have hva : verify_access db u s = false := by
      simp [verify_access, hrole]
    simp [connect, hs, hact, hva]
  · cases hgs : get_session db sid with
    | none => exact Or.inl ⟨3000, by simp [connect, hgs]⟩
    | some s =>
      by_cases hact : s.isActive
      · by_cases hva : verify_access db u s
        · exact Or.inr (by simp [connect, hgs, hact, hva])
        · exact Or.inl ⟨3002, by simp [connect, hgs, hact, hva]⟩
      · exact Or.inl ⟨3001, by simp [connect, hgs, hact]⟩

/-- C1 witness: teacher 2 is assigned to session 7's class and their
connection is accepted, while student 5's attempt on the ended session 8
is closed with 3001. -/
theorem C1_connect_authorization_witness :
    connect demoDb (some uT2) 7 0
      = [WsEffect.groupAdd 0, WsEffect.accept,
         WsEffect.sendUserJoined uT2.id (getFullName uT2) uT2.role]
    ∧ connect demoDb (some uS5) 8 0 = [WsEffect.close 3001] := by
  constructor
  · have h := (C1_connect_authorization demoDb uT2 7 0).2.2.2.1
      { id := 7, classInstance := 100, teacher := 1, startedAt := 0,
        endedAt := none, isActive := true } (by decide) rfl rfl
    rw [h]
    have hA : hasAssignment demoDb uT2.id 100 = true := by decide
    simp [hA]
  · exact (C1_connect_authorization demoDb uS5 8 0).2.2.1
      { id := 8, classInstance := 100, teacher := 1, startedAt := 0,
        endedAt := some 5, isActive := false } (by decide) rfl

/-- C5 counterexample: teacher 2 is assigned to session 7's class but did
not create the session, and their end request is refused with 403 — the
end operation is gated by ownership of the session object, so the claim
that any teacher assigned to the session's class is authorized for all
three operations is false. -/
theorem C5_counterexample :
    hasAssignment demoDb uT2.id 100 = true
    ∧ (get_session demoDb 7).map WhiteboardSession.teacher = some 1
    ∧ end_session_view demoDb uT2 7 60 = (403, demoDb) := by decide

/-- C5 amended: WebSocket connect and REST join are gated by domain
relationships — any teacher assigned to the session's class, and any
student actively enrolled in it, is authorized for them whether or not
they created the session — but the REST end operation additionally
requires ownership: a teacher assigned to the class who is not the
session's creator is refused with 403, and only the creating teacher's
end request passes the permission check. -/
theorem C5_domain_authorization (db : DB) (u : User) (s : WhiteboardSession)
    (pk ch now : Nat)
    (hfind : get_session db pk = some s)
    (hact : s.isActive = true) :
    (u.role = Role.teacher → hasAssignment db u.id s.classInstance = true →
        WsEffect.accept ∈ connect db (some u) pk ch
        ∧ join_session_view db u pk = 200
        ∧ (s.teacher ≠ u.id → end_session_view db u pk now = (403, db))
        ∧ (s.teacher = u.id → (end_session_view db u pk now).1 = 200))
    ∧ (u.role = Role.student →
        hasActiveEnrolment db u.id s.classInstance = true →
          WsEffect.accept ∈ connect db (some u) pk ch
          ∧ join_session_view db u pk = 200) := by
  constructor
  · intro hrole hassign
    have hobj := getSessionObject_teacher db u pk s hrole hfind hassign
    refine ⟨?_, ?_, ?_, ?_⟩
    · have hva : verify_access db u s = true := by
        simp [verify_access, hrole, hassign]
      simp [connect, hfind, hact, hva]
    · simp [join_session_view, hobj, hact, hrole, hassign]
    · intro hne
      have : ¬(u.role = Role.teacher ∧ s.teacher = u.id) := by
        intro hcontr
        exact hne hcontr.2
      simp [end_session_view, hobj, this]
    · intro heq
      simp [end_session_view, hobj, hrole, heq, hact]
  · intro hrole henrol
    have hobj := getSessionObject_student db u pk s hrole hfind henrol
    constructor
    · have hva : verify_access db u s = true := by
        simp [verify_access, hrole, henrol]
      simp [connect, hfind, hact, hva]
    · simp [join_session_view, hobj, hact, hrole, henrol]

/-- C5 witness: teacher 2, assigned to class 100 but not the creator of
session 7, may connect and join it, and enrolled student 5 may join it
too. -/
theorem C5_domain_authorization_witness :
    WsEffect.accept ∈ connect demoDb (some uT2) 7 0
    ∧ join_session_view demoDb uT2 7 = 200
    ∧ join_session_view demoDb uS5 7 = 200 :=
  ⟨((C5_domain_authorization demoDb uT2
      { id := 7, classInstance := 100, teacher := 1, startedAt := 0,
        endedAt := none, isActive := true } 7 0 60
      (by decide) rfl).1 rfl (by decide)).1,
   ((C5_domain_authorization demoDb uT2
      { id := 7, classInstance := 100, teacher := 1, startedAt := 0,
        endedAt := none, isActive := true } 7 0 60
      (by decide) rfl).1 rfl (by decide)).2.1,
   ((C5_domain_authorization demoDb uS5
      { id := 7, classInstance := 100, teacher := 1, startedAt := 0,
        endedAt := none, isActive := true } 7 0 60
      (by decide) rfl).2 rfl (by decide)).2⟩

/-- C10 counterexample: session 8 is already ended, yet teacher 2's end
request yields 403, not 400 — the permission check (requester must be the
creating teacher) runs before the is_active check, so the claim that
invoking end on an ended session returns HTTP 400 is false as stated. -/
theorem C10_counterexample :
    (get_session demoDb 8).map WhiteboardSession.isActive = some false
    ∧ end_session_view demoDb uT2 8 60 = (403, demoDb) := by decide

/-- C10 amended: when the end action is invoked by the teacher who created
the session (and is assigned to its class, so the session is in their
queryset), an already-ended session yields HTTP 400 with the session's
is_active and ended_at unchanged, and an active session yields HTTP 200
with is_active set to False and ended_at set to the current time; any
other requester whose queryset contains the session is refused with 403
before the is_active check, a requester whose queryset does not contain
the session receives 404, and in both cases the session is unchanged. -/
theorem C10_end_behaviour (db : DB) (u : User) (s : WhiteboardSession)
    (pk now : Nat)
    (hfind : get_session db pk = some s)
    (hrole : u.role = Role.teacher)
    (howner : s.teacher = u.id)
    (hassign : hasAssignment db u.id s.classInstance = true) :
    (s.isActive = false → end_session_view db u pk now = (400, db))
    ∧ (s.isActive = true →
        (end_session_view db u pk now).1 = 200
        ∧ get_session (end_session_view db u pk now).2 pk
            = some { s with isActive := false, endedAt := some now })
    ∧ (∀ v : User, ∀ t : WhiteboardSession, getSessionObject db v pk = some t →
        ¬(v.role = Role.teacher ∧ t.teacher = v.id) →
          end_session_view db v pk now = (403, db))
    ∧ (∀ v : User, getSessionObject db v pk = none →
        end_session_view db v pk now = (404, db)) := by
  have hobj := getSessionObject_teacher db u pk s hrole hfind hassign
  refine ⟨?_, ?_, ?_, ?_⟩
  · intro hina
    simp [end_session_view, hobj, hrole, howner, hina]
  · intro hact
    constructor
    · simp [end_session_view, hobj, hrole, howner, hact]
    · have hview : end_session_view db u pk now = (200, endSessionModel db pk now) := by
        simp [end_session_view, hobj, hrole, howner, hact]
      rw [hview]
      show get_session (endSessionModel db pk now) pk = _
      unfold get_session endSessionModel
      rw [find?_map_endIf]
      show (get_session db pk).map _ = _
      rw [hfind]
      rfl
  · intro v t hvobj hperm
    simp [end_session_view, hvobj, hperm]
  · intro v hvobj
    simp [end_session_view, hvobj]

/-- C10 witness: teacher 1 created both sessions; ending the already-ended
session 8 returns 400 and changes nothing, ending the active session 7
returns 200 and stamps ended_at with the current time, and parent 4, in
whose queryset session 8 does not appear, receives 404. -/
theorem C10_end_behaviour_witness :
    end_session_view demoDb uT1 8 60 = (400, demoDb)
    ∧ get_session (end_session_view demoDb uT1 7 60).2 7
        = some { id := 7, classInstance := 100, teacher := 1,
                 startedAt := 0, endedAt := some 60, isActive := false }
    ∧ end_session_view demoDb uP4 8 60 = (404, demoDb) :=
  ⟨(C10_end_behaviour demoDb uT1
      { id := 8, classInstance := 100, teacher := 1, startedAt := 0,
        endedAt := some 5, isActive := false } 8 60
      (by decide) rfl rfl (by decide)).1 rfl,
   ((C10_end_behaviour demoDb uT1
      { id := 7, classInstance := 100, teacher := 1, startedAt := 0,
        endedAt := none, isActive := true } 7 60
      (by decide) rfl rfl (by decide)).2.1 rfl).2,
   (C10_end_behaviour demoDb uT1
      { id := 8, classInstance := 100, teacher := 1, startedAt := 0,
        endedAt := some 5, isActive := false } 8 60
      (by decide) rfl rfl (by decide)).2.2.2 uP4 (by decide)⟩

/-- C8: a whiteboard-session create request for a class that already has
an active session fails with HTTP 400 and leaves the session table
unchanged, and both session creation and the end action preserve the
invariant that every class has at most one active session. -/
theorem C8_single_active_session (db : DB) (u : User)
    (cid pk newId now : Nat) (nm : String) :
    (u.role = Role.teacher → (findClass db cid).isSome = true →
      hasAssignment db u.id cid = true → anyActiveSession db cid = true →
        create_session_view db u cid nm newId now = (400, db))
    ∧ (atMostOneActive db.sessions = true →
        atMostOneActive (create_session_view db u cid nm newId now).2.sessions
          = true)
    ∧ (atMostOneActive db.sessions = true →
        atMostOneActive (end_session_view db u pk now).2.sessions = true) := by
  refine ⟨?_, ?_, ?_⟩
  · intro hrole hcls hassign hany
    obtain ⟨c, hc⟩ := Option.isSome_iff_exists.mp hcls
    simp [create_session_view, hrole, hc, hassign, hany]
  · intro hinv
    by_cases hrole : u.role = Role.teacher
    · cases hc : findClass db cid with
      | none => simpa [create_session_view, hrole, hc] using hinv
      | some c =>
        by_cases hassign : hasAssignment db u.id cid
        · by_cases hany : anyActiveSession db cid
          · simpa [create_session_view, hrole, hc, hassign, hany] using hinv
          · have hsess : (create_session_view db u cid nm newId now).2.sessions
                = db.sessions ++
                  [{ id := newId, classInstance := cid, teacher := u.id,
                     startedAt := now, endedAt := none, isActive := true }] := by
              simp [create_session_view, hrole, hc, hassign, hany]
            rw [hsess]
            apply atMostOneActive_append
            · simpa [anyActiveSession] using hany
            · exact hinv
        · simpa [create_session_view, hrole, hc, hassign] using hinv
    · simpa [create_session_view, hrole] using hinv
  · intro hinv
    rcases end_session_view_sessions db u pk now with h | h
    · rw [h]; exact hinv
    · rw [h]
      apply atMostOneActive_map _ _ _ hinv
      intro s
      by_cases hid : s.id = pk
      · exact Or.inr ⟨now, by simp [hid]⟩
      · exact Or.inl (by simp [hid])

/-- C8 witness: class 100 already has the active session 7, so teacher 1's
create request returns 400, leaves the database unchanged, and the
single-active-session invariant still holds afterwards. -/
theorem C8_single_active_session_witness :
    create_session_view demoDb uT1 100 "Algebra" 99 60 = (400, demoDb)
    ∧ atMostOneActive
        (create_session_view demoDb uT1 100 "Algebra" 99 60).2.sessions = true :=
  ⟨(C8_single_active_session demoDb uT1 100 7 99 60 "Algebra").1
      rfl (by decide) (by decide) (by decide),
   (C8_single_active_session demoDb uT1 100 7 99 60 "Algebra").2.1 (by decide)⟩

/-- C3: the claim is the stated intent of the code (TeacherAssignment.clean
and the class-creation API both limit a teacher to 3 classes), but the
direct TeacherAssignment request path only validates the role: teacher 3
already holds 3 assignments, the class-creation validator would refuse a
fourth, yet the direct assignment request succeeds with 201 and gives
teacher 3 a fourth assignment, because TeacherAssignmentSerializer checks
only the role and Django never calls TeacherAssignment.clean on save. -/
theorem C3_fourth_assignment_created :
    assignmentCount demoDb 3 = 3
    ∧ validate_teacher_ids demoDb [3] = false
    ∧ (assign_teacher_view demoDb uA0 13 13 3).1 = 201
    ∧ assignmentCount (assign_teacher_view demoDb uA0 13 13 3).2 3 = 4 := by
  decide

/-- C4: the claim is the stated intent of the code (Enrolment.clean and
EnrolmentSerializer both demand that student and class share a centre),
but the enrolment request path validates the BODY's class_instance and
then saves with the URL's class: student 5 of centre 1, posted to class
200 of centre 2 with body class 100 of centre 1, is enrolled into class
200 with 201 — a cross-centre enrolment is created with no validation
error. -/
theorem C4_cross_centre_enrolment_created :
    (findUser demoDb 5).map User.centre = some (some 1)
    ∧ (findClass demoDb 200).map ClassRec.centre = some 2
    ∧ (enrol_student_view demoDb uA0 200 100 5).1 = 201
    ∧ ({ student := 5, classInstance := 200, isActive := true } : Enrolment)
        ∈ (enrol_student_view demoDb uA0 200 100 5).2.enrolments := by
  decide

/-- C7 counterexample: running the only recurring whiteboard task on the
demo database ends the stale session 7 but stores no snapshot row — the
claim that snapshot records are saved by a recurring mechanism, not solely
in response to an explicit client request, is false. -/
theorem C7_counterexample :
    ((cleanup_old_sessions dbSnap 30).sessions.find? (fun s => s.id == 7)).map
        WhiteboardSession.isActive = some false
    ∧ (cleanup_old_sessions dbSnap 30).snapshots = dbSnap.snapshots := by
  decide

/-- C7 amended: whole-canvas snapshots are persisted only in response to
an explicit client request — a teacher's POST to the session's snapshots
endpoint appends exactly one snapshot row — while the recurring background
task over whiteboard sessions (cleanup_old_sessions) never changes the
snapshot table; it only ends stale sessions. -/
theorem C7_snapshots_only_on_request (db : DB) (u : User) (pk now : Nat)
    (canvas : String) :
    (cleanup_old_sessions db now).snapshots = db.snapshots
    ∧ ((snapshots_post db u pk canvas).1 = 201 →
        (snapshots_post db u pk canvas).2.snapshots
          = db.snapshots ++
            [{ session := pk, snapshotData := canvas, savedBy := some u.id }])
    ∧ ((snapshots_post db u pk canvas).1 ≠ 201 →
        (snapshots_post db u pk canvas).2.snapshots = db.snapshots) := by
  refine ⟨rfl, ?_, ?_⟩
  · intro h
    cases hobj : getSessionObject db u pk with
    | none => simp [snapshots_post, hobj] at h
    | some s =>
      by_cases hrole : u.role = Role.teacher
      · simp [snapshots_post, hobj, hrole]
      · simp [snapshots_post, hobj, hrole] at h
  · intro h
    cases hobj : getSessionObject db u pk with
    | none => simp [snapshots_post, hobj]
    | some s =>
      by_cases hrole : u.role = Role.teacher
      · exact absurd (by simp [snapshots_post, hobj, hrole]) h
      · simp [snapshots_post, hobj, hrole]

/-- C7 witness: teacher 1's snapshot POST for session 7 appends exactly
one snapshot row to the otherwise untouched snapshot table. -/
theorem C7_snapshots_only_on_request_witness :
    (snapshots_post dbSnap uT1 7 "canvas-state").2.snapshots
      = dbSnap.snapshots ++
        [{ session := 7, snapshotData := "canvas-state",
           savedBy := some uT1.id }] :=
  (C7_snapshots_only_on_request dbSnap uT1 7 30 "canvas-state").2.1 (by decide)

end Dentomotion
